import Mathlib

/-!
Verification of the Jellyfin media-source integration
(`homeassistant/components/jellyfin/media_source.py` and `const.py`).

The Python module is embedded shallowly: every remote call made through the
wrapped API client (`get_item`, `get_media_folders`, `user_items`) becomes a
field of an explicit `Server` record, dictionary items become the `Item`
record holding exactly the fields the module consumes, and Python exceptions
become `Except JfError`.  A `BrowseError` raised by the module itself is
`JfError.browseError msg`; an uncaught Python runtime exception (such as the
`IndexError` from indexing an empty list) is `JfError.pyError kind`.
-/

namespace Jellyfin

/-! ## Constants (`const.py`) -/

/-- From `const.py`: `COLLECTION_TYPE_MOVIES = "movies"`. -/
def COLLECTION_TYPE_MOVIES : String := "movies"

/-- From `const.py`: `COLLECTION_TYPE_TVSHOWS = "tvshows"`. -/
def COLLECTION_TYPE_TVSHOWS : String := "tvshows"

/-- From `const.py`: `COLLECTION_TYPE_MUSIC = "music"`. -/
def COLLECTION_TYPE_MUSIC : String := "music"

/-- From `const.py`:
`SUPPORTED_COLLECTION_TYPES = [COLLECTION_TYPE_MOVIES, COLLECTION_TYPE_TVSHOWS]`. -/
def SUPPORTED_COLLECTION_TYPES : List String :=
  [COLLECTION_TYPE_MOVIES, COLLECTION_TYPE_TVSHOWS]

/-- From `const.py`: `MAX_STREAMING_BITRATE = "140000000"`. -/
def MAX_STREAMING_BITRATE : String := "140000000"

/-- Modelled from the spec: `media_source.py` imports `ITEM_TYPE_LIBRARY` from
`const.py`, but the `const.py` under `src/` does not define it.  The spec's
classification "library" corresponds to the server's collection-folder type. -/
def ITEM_TYPE_LIBRARY : String := "CollectionFolder"

/-- Modelled from the spec: `ITEM_TYPE_ARTIST`, imported by `media_source.py`
but missing from the `const.py` under `src/`. -/
def ITEM_TYPE_ARTIST : String := "MusicArtist"

/-- Modelled from the spec: `ITEM_TYPE_ALBUM`, imported by `media_source.py`
but missing from the `const.py` under `src/`. -/
def ITEM_TYPE_ALBUM : String := "MusicAlbum"

/-- Modelled from the spec: `ITEM_TYPE_AUDIO`, imported by `media_source.py`
but missing from the `const.py` under `src/`. -/
def ITEM_TYPE_AUDIO : String := "Audio"

/-- Modelled from the spec: `MEDIA_TYPE_AUDIO`, imported by `media_source.py`
but missing from the `const.py` under `src/`; only MediaType "Audio" is
supported for streaming. -/
def MEDIA_TYPE_AUDIO : String := "Audio"

/-- Modelled from the spec: `MEDIA_TYPE_NONE`, the content-type tag used for
non-playable directory-like nodes. -/
def MEDIA_TYPE_NONE : String := ""

/-- Modelled from the spec: classification tag "directory" from the host
platform's media-player constants (`MEDIA_CLASS_DIRECTORY`). -/
def MEDIA_CLASS_DIRECTORY : String := "directory"

/-- Modelled from the spec: classification tag "artist"
(`MEDIA_CLASS_ARTIST`). -/
def MEDIA_CLASS_ARTIST : String := "artist"

/-- Modelled from the spec: classification tag "album" (`MEDIA_CLASS_ALBUM`). -/
def MEDIA_CLASS_ALBUM : String := "album"

/-- Modelled from the spec: classification tag "track" (`MEDIA_CLASS_TRACK`). -/
def MEDIA_CLASS_TRACK : String := "track"

/-! ## Data model -/

/-- One entry of an item's `MediaSources` list; the module only reads its
`Path` key. -/
structure MediaSource where
  Path : String
deriving DecidableEq, Repr

/-- A remote item as consumed by the module: exactly the dictionary keys the
code reads.  `CollectionType` is optional because `_get_libraries` tests for
the key's presence; the other keys are read unconditionally, so they are
total fields (the claims presuppose well-formed items). -/
structure Item where
  Id : String
  Name : String
  «Type» : String
  CollectionType : Option String
  IndexNumber : Int
  ImageTags : List (String × String)
  MediaType : String
  MediaSources : List MediaSource
deriving DecidableEq, Repr

/-- Errors escaping the module: `browseError` embeds a raised `BrowseError`
with its message; `pyError` embeds an uncaught Python runtime exception
(e.g. "IndexError", "KeyError") with its exception-class name. -/
inductive JfError where
  | browseError (msg : String)
  | pyError (kind : String)
deriving DecidableEq, Repr

/-- Result of `async_resolve_media`: stream URL plus MIME type. -/
structure PlayMedia where
  url : String
  mime_type : String
deriving DecidableEq, Repr

/-- The scalar fields of a `BrowseMediaSource` node. -/
structure BNodeData where
  identifier : Option String
  media_class : String
  media_content_type : String
  title : String
  can_play : Bool
  can_expand : Bool
  thumbnail : Option String
  children_media_class : Option String
deriving DecidableEq, Repr

/-- A `BrowseMediaSource` tree node: scalar data plus an optional children
list (`none` models the Python attribute being unset). -/
inductive BNode where
  | mk (data : BNodeData) (children : Option (List BNode)) : BNode

/-- Scalar data of a node. -/
def BNode.data : BNode → BNodeData
  | .mk d _ => d

/-- Children of a node (`none` when never populated). -/
def BNode.children : BNode → Option (List BNode)
  | .mk _ c => c

/-- Identifier of a node. -/
def BNode.identifier (n : BNode) : Option String := n.data.identifier

/-- Media class of a node. -/
def BNode.media_class (n : BNode) : String := n.data.media_class

/-- Title of a node. -/
def BNode.title (n : BNode) : String := n.data.title

/-- Playability flag of a node. -/
def BNode.can_play (n : BNode) : Bool := n.data.can_play

/-- Expandability flag of a node. -/
def BNode.can_expand (n : BNode) : Bool := n.data.can_expand

/-- The environment of one `JellyfinSource`: the configuration values read
from the client (`jellyfin_url(client, "")`, `auth.user_id`, `app.device_id`,
`auth.token`) and the three remote calls the module makes.  `getItem` is
total: the spec constrains identifiers to items the external client
recognizes.  `userItems parentId itemType` models
`api.user_items("", {Recursive: "true", ParentId: parentId,
IncludeItemTypes: itemType, ...})["Items"]`; the optional `Fields` request
parameter only enlarges the returned payload, which the `Item` record already
carries in full. -/
structure Server where
  url : String
  userId : String
  deviceId : String
  apiKey : String
  getItem : String → Item
  mediaFolders : List Item
  userItems : String → String → List Item

/-! ## The Python `mimetypes` dependency

`_media_mime_type` calls `mimetypes.guess_type(path)`.  That standard-library
function is modelled here by a finite fragment of its extension table keyed
by the path's extension in the sense of `posixpath.splitext`. -/

/-- Fragment of the Python `mimetypes.types_map` table, keyed by lowercase
extension without the dot. -/
def types_map : List (String × String) :=
  [("mp3", "audio/mpeg"), ("ogg", "audio/ogg"), ("wav", "audio/x-wav"),
   ("m4a", "audio/mp4"), ("aif", "audio/x-aiff"), ("mp4", "video/mp4"),
   ("avi", "video/x-msvideo"), ("mov", "video/quicktime"),
   ("jpg", "image/jpeg"), ("png", "image/png"), ("txt", "text/plain")]

/-- Modelled from the Python standard library: `posixpath.splitext`'s
extension rule as used by `mimetypes.guess_type`.  The extension is the
lowercased segment after the last dot of the final path component, and it
exists only when that component has a non-dot character somewhere before
that dot (leading dots of the component belong to the root, so a dotfile
such as "/music/.mp3" has no extension). -/
def extOf (path : String) : Option String :=
  let rbase := path.data.reverse.takeWhile (fun c => c != '/')
  let e := rbase.takeWhile (fun c => c != '.')
  if e.length = rbase.length then none
  else if (rbase.drop (e.length + 1)).any (fun c => c != '.') then
    some (String.mk ((e.reverse).map Char.toLower))
  else none

/-- Modelled from the Python standard library: `mimetypes.guess_type`,
restricted to the extension-table lookup that the module relies on. -/
def guess_type (path : String) : Option String :=
  (extOf path).bind (fun e => types_map.lookup e)

/-! ## The module's operations (`media_source.py`) -/

/-- Embeds `_media_mime_type` (module-level function): index `[0]` of the
`MediaSources` list (an `IndexError` when empty), guess the MIME type from
the entry's `Path`, raise `BrowseError` when the guess fails. -/
def media_mime_type (media_item : Item) : Except JfError String :=
  match media_item.MediaSources with
  | [] => .error (.pyError "IndexError")
  | media_source :: _ =>
    match guess_type media_source.Path with
    | some mime_type => .ok mime_type
    | none =>
      .error (.browseError
        ("Unable to determine mime type for path " ++ media_source.Path))

/-- Embeds `JellyfinSource._get_audio_stream_url`. -/
def get_audio_stream_url (s : Server) (media_item : Item) : String :=
  s.url ++ "Audio/" ++ media_item.Id ++ "/universal?UserId=" ++ s.userId ++
    "&DeviceId=" ++ s.deviceId ++ "&api_key=" ++ s.apiKey ++
    "&MaxStreamingBitrate=" ++ MAX_STREAMING_BITRATE

/-- Embeds `JellyfinSource._get_stream_url`: only MediaType "Audio" is
supported, anything else raises `BrowseError`. -/
def get_stream_url (s : Server) (media_item : Item) : Except JfError String :=
  if media_item.MediaType = MEDIA_TYPE_AUDIO then
    .ok (get_audio_stream_url s media_item)
  else
    .error (.browseError ("Unsupported media type " ++ media_item.MediaType))

/-- Embeds `JellyfinSource._get_thumbnail_url`: a URL when `ImageTags` holds a
"Primary" entry, `none` otherwise. -/
def get_thumbnail_url (s : Server) (media_item : Item) : Option String :=
  match media_item.ImageTags.lookup "Primary" with
  | some tag =>
    some (s.url ++ "Items/" ++ media_item.Id ++ "/Images/Primary?Tag=" ++
      tag ++ "&api_key=" ++ s.apiKey)
  | none => none

/-- Embeds `JellyfinSource.async_resolve_media`: fetch the item, compute the
stream URL, then the MIME type (in that order, as in the source). -/
def async_resolve_media (s : Server) (identifier : String) :
    Except JfError PlayMedia := do
  let media_item := s.getItem identifier
  let stream_url ← get_stream_url s media_item
  let mime_type ← media_mime_type media_item
  return { url := stream_url, mime_type := mime_type }

/-- Embeds `JellyfinSource._get_children`. -/
def get_children (s : Server) (parent_id : String) (item_type : String) :
    List Item :=
  s.userItems parent_id item_type

/-- Comparison used by `sorted(..., key=lambda k: k[ITEM_KEY_NAME])`. -/
def nameLE (a b : Item) : Bool := decide (a.Name ≤ b.Name)

/-- Comparison used by `sorted(..., key=lambda k: k[ITEM_KEY_INDEX_NUMBER])`. -/
def indexLE (a b : Item) : Bool := decide (a.IndexNumber ≤ b.IndexNumber)

/-- Embeds `JellyfinSource._build_track`: a playable, non-expandable leaf
whose content type is the track's guessed MIME type (so building fails when
the MIME type cannot be determined). -/
def build_track (s : Server) (track : Item) : Except JfError BNode := do
  let mime_type ← media_mime_type track
  return .mk
    { identifier := some track.Id
      media_class := MEDIA_CLASS_TRACK
      media_content_type := mime_type
      title := track.Name
      can_play := true
      can_expand := false
      thumbnail := get_thumbnail_url s track
      children_media_class := none }
    none

/-- Embeds `JellyfinSource._build_tracks`: fetch the album's audio children,
sort by index number, build each track. -/
def build_tracks (s : Server) (album_id : String) :
    Except JfError (List BNode) :=
  ((get_children s album_id ITEM_TYPE_AUDIO).mergeSort indexLE).mapM
    (build_track s)

/-- Scalar data of the node `JellyfinSource._build_album` constructs before
children are attached. -/
def album_data (s : Server) (album : Item) : BNodeData :=
  { identifier := some album.Id
    media_class := MEDIA_CLASS_ALBUM
    media_content_type := MEDIA_TYPE_NONE
    title := album.Name
    can_play := false
    can_expand := true
    thumbnail := get_thumbnail_url s album
    children_media_class := none }

/-- Embeds `JellyfinSource._build_album`. -/
def build_album (s : Server) (album : Item) (include_children : Bool) :
    Except JfError BNode :=
  if include_children then do
    let children ← build_tracks s album.Id
    return .mk { album_data s album with
                  children_media_class := some MEDIA_CLASS_TRACK }
      (some children)
  else
    return .mk (album_data s album) none

/-- Embeds `JellyfinSource._build_albums`: fetch the artist's album children,
sort by name, build each album without its own children. -/
def build_albums (s : Server) (artist_id : String) :
    Except JfError (List BNode) :=
  ((get_children s artist_id ITEM_TYPE_ALBUM).mergeSort nameLE).mapM
    (fun album => build_album s album false)

/-- Scalar data of the node `JellyfinSource._build_artist` constructs before
children are attached. -/
def artist_data (s : Server) (artist : Item) : BNodeData :=
  { identifier := some artist.Id
    media_class := MEDIA_CLASS_ARTIST
    media_content_type := MEDIA_TYPE_NONE
    title := artist.Name
    can_play := false
    can_expand := true
    thumbnail := get_thumbnail_url s artist
    children_media_class := none }

/-- Embeds `JellyfinSource._build_artist`. -/
def build_artist (s : Server) (artist : Item) (include_children : Bool) :
    Except JfError BNode :=
  if include_children then do
    let children ← build_albums s artist.Id
    return .mk { artist_data s artist with
                  children_media_class := some MEDIA_CLASS_ALBUM }
      (some children)
  else
    return .mk (artist_data s artist) none

/-- Embeds `JellyfinSource._build_artists`: fetch the library's artist
children, sort by name, build each artist without its own children. -/
def build_artists (s : Server) (library_id : String) :
    Except JfError (List BNode) :=
  ((get_children s library_id ITEM_TYPE_ARTIST).mergeSort nameLE).mapM
    (fun artist => build_artist s artist false)

/-- Scalar data of the node `JellyfinSource._build_music_library` constructs
before children are attached. -/
def music_library_data (library : Item) : BNodeData :=
  { identifier := some library.Id
    media_class := MEDIA_CLASS_DIRECTORY
    media_content_type := MEDIA_TYPE_NONE
    title := library.Name
    can_play := false
    can_expand := true
    thumbnail := none
    children_media_class := none }

/-- Embeds `JellyfinSource._build_music_library`. -/
def build_music_library (s : Server) (library : Item)
    (include_children : Bool) : Except JfError BNode :=
  if include_children then do
    let children ← build_artists s library.Id
    return .mk { music_library_data library with
                  children_media_class := some MEDIA_CLASS_ARTIST }
      (some children)
  else
    return .mk (music_library_data library) none

/-- Embeds `JellyfinSource._build_library`: read the `CollectionType` key (a
`KeyError` when absent), dispatch to the music builder, raise `BrowseError`
for every other collection type. -/
def build_library (s : Server) (library : Item) (include_children : Bool) :
    Except JfError BNode :=
  match library.CollectionType with
  | none => .error (.pyError "KeyError")
  | some collection_type =>
    if collection_type = COLLECTION_TYPE_MUSIC then
      build_music_library s library include_children
    else
      .error (.browseError
        ("Unsupported collection type " ++ collection_type))

/-- Embeds `JellyfinSource._get_libraries`: keep the media folders whose
`CollectionType` key is present and listed in `SUPPORTED_COLLECTION_TYPES`. -/
def get_libraries (s : Server) : List Item :=
  s.mediaFolders.filter (fun library =>
    match library.CollectionType with
    | some collection_type =>
      SUPPORTED_COLLECTION_TYPES.contains collection_type
    | none => false)

/-- Scalar data of the root node `JellyfinSource._build_libraries`
constructs. -/
def root_data : BNodeData :=
  { identifier := none
    media_class := MEDIA_CLASS_DIRECTORY
    media_content_type := MEDIA_TYPE_NONE
    title := "Jellyfin"
    can_play := false
    can_expand := true
    thumbnail := none
    children_media_class := some MEDIA_CLASS_DIRECTORY }

/-- Embeds `JellyfinSource._build_libraries`: the root node with one
non-expanded child per supported library. -/
def build_libraries (s : Server) : Except JfError BNode := do
  let children ← (get_libraries s).mapM
    (fun library => build_library s library false)
  return .mk root_data (some children)

/-- Embeds `JellyfinSource.async_browse_media`.  The `media_types` argument
mirrors the Python keyword parameter; it is never consulted.  An absent or
empty identifier (Python falsiness of `item.identifier`) yields the root
listing; otherwise the item is fetched and dispatched on its `Type`. -/
def async_browse_media (s : Server) (identifier : Option String)
    (media_types : List String) : Except JfError BNode :=
  if identifier.getD "" = "" then build_libraries s
  else
    let media_item := s.getItem (identifier.getD "")
    if media_item.«Type» = ITEM_TYPE_LIBRARY then
      build_library s media_item true
    else if media_item.«Type» = ITEM_TYPE_ARTIST then
      build_artist s media_item true
    else if media_item.«Type» = ITEM_TYPE_ALBUM then
      build_album s media_item true
    else
      .error (.browseError
        ("Unsupported item type " ++ media_item.«Type»))


/-! ## Derived node forms -/

/-- The node `_build_artist` produces when children are not included. -/
def artist_node (s : Server) (artist : Item) : BNode :=
  .mk (artist_data s artist) none

/-- The node `_build_album` produces when children are not included. -/
def album_node (s : Server) (album : Item) : BNode :=
  .mk (album_data s album) none

/-- The node `_build_music_library` produces when children are not
included. -/
def music_library_node (library : Item) : BNode :=
  .mk (music_library_data library) none

/-- The node `_build_track` produces when the track MIME type is
determinable. -/
def track_node (s : Server) (track : Item) : BNode :=
  .mk
    { identifier := some track.Id
      media_class := MEDIA_CLASS_TRACK
      media_content_type := (media_mime_type track).toOption.getD ""
      title := track.Name
      can_play := true
      can_expand := false
      thumbnail := get_thumbnail_url s track
      children_media_class := none }
    none

/-- The children list the music-library builder attaches: artists sorted by
name, each built without children. -/
def artist_children (s : Server) (library_id : String) : List BNode :=
  ((get_children s library_id ITEM_TYPE_ARTIST).mergeSort nameLE).map
    (artist_node s)

/-- The children list the album builder attaches: tracks sorted by index
number, each built as a playable leaf. -/
def track_children (s : Server) (album_id : String) : List BNode :=
  ((get_children s album_id ITEM_TYPE_AUDIO).mergeSort indexLE).map
    (track_node s)

/-! ## Concrete sample data (used by closed evaluations and witnesses) -/

def sampleMusicLibrary : Item :=
  { Id := "lib-music", Name := "Music", «Type» := ITEM_TYPE_LIBRARY,
    CollectionType := some COLLECTION_TYPE_MUSIC, IndexNumber := 0,
    ImageTags := [], MediaType := MEDIA_TYPE_NONE, MediaSources := [] }

def sampleMoviesLibrary : Item :=
  { Id := "lib-movies", Name := "Movies", «Type» := ITEM_TYPE_LIBRARY,
    CollectionType := some COLLECTION_TYPE_MOVIES, IndexNumber := 0,
    ImageTags := [], MediaType := MEDIA_TYPE_NONE, MediaSources := [] }

def serverMusicOnly : Server :=
  { url := "http://jf/", userId := "u1", deviceId := "d1", apiKey := "k1",
    getItem := fun _ => sampleMusicLibrary,
    mediaFolders := [sampleMusicLibrary],
    userItems := fun _ _ => [] }

def serverWithMovies : Server :=
  { url := "http://jf/", userId := "u1", deviceId := "d1", apiKey := "k1",
    getItem := fun _ => sampleMoviesLibrary,
    mediaFolders := [sampleMoviesLibrary, sampleMusicLibrary],
    userItems := fun _ _ => [] }

/-- An audio item whose media-sources list is empty. -/
def emptySourcesItem : Item :=
  { Id := "track-empty", Name := "Empty Track", «Type» := ITEM_TYPE_AUDIO,
    CollectionType := none, IndexNumber := 1, ImageTags := [],
    MediaType := MEDIA_TYPE_AUDIO, MediaSources := [] }

/-- A server resolving every identifier to `emptySourcesItem`. -/
def serverEmptySources : Server :=
  { url := "http://jf/", userId := "u1", deviceId := "d1", apiKey := "k1",
    getItem := fun _ => emptySourcesItem,
    mediaFolders := [],
    userItems := fun _ _ => [] }

/-- An album item whose single track has no media sources. -/
def sampleBadAlbum : Item :=
  { Id := "alb-bad", Name := "Bad Album", «Type» := ITEM_TYPE_ALBUM,
    CollectionType := none, IndexNumber := 0, ImageTags := [],
    MediaType := MEDIA_TYPE_NONE, MediaSources := [] }

/-- A server exposing `sampleBadAlbum` with `emptySourcesItem` as its only
track. -/
def serverBadAlbum : Server :=
  { url := "http://jf/", userId := "u1", deviceId := "d1", apiKey := "k1",
    getItem := fun _ => sampleBadAlbum,
    mediaFolders := [],
    userItems := fun _ _ => [emptySourcesItem] }

/-- Classifier separating the two error kinds: `true` exactly on raised
`BrowseError`s. -/
def is_browse_error : JfError → Bool
  | .browseError _ => true
  | .pyError _ => false

/-- An artist item whose name sorts second. -/
def artistBeta : Item :=
  { Id := "art-b", Name := "Beta", «Type» := ITEM_TYPE_ARTIST,
    CollectionType := none, IndexNumber := 0,
    ImageTags := [("Primary", "tag-b")], MediaType := MEDIA_TYPE_NONE,
    MediaSources := [] }

/-- An artist item whose name sorts first. -/
def artistAlpha : Item :=
  { Id := "art-a", Name := "Alpha", «Type» := ITEM_TYPE_ARTIST,
    CollectionType := none, IndexNumber := 0, ImageTags := [],
    MediaType := MEDIA_TYPE_NONE, MediaSources := [] }

/-- A server exposing one music library with two artists (out of name
order). -/
def serverLibrary : Server :=
  { url := "http://jf/", userId := "u1", deviceId := "d1", apiKey := "k1",
    getItem := fun _ => sampleMusicLibrary,
    mediaFolders := [sampleMusicLibrary],
    userItems := fun _ item_type =>
      if item_type = ITEM_TYPE_ARTIST then [artistBeta, artistAlpha]
      else [] }

/-- A track with index number 1 and an mp3 path. -/
def trackOne : Item :=
  { Id := "trk-1", Name := "One", «Type» := ITEM_TYPE_AUDIO,
    CollectionType := none, IndexNumber := 1, ImageTags := [],
    MediaType := MEDIA_TYPE_AUDIO, MediaSources := [⟨"/m/one.mp3"⟩] }

/-- A track with index number 2 and an mp3 path. -/
def trackTwo : Item :=
  { Id := "trk-2", Name := "Two", «Type» := ITEM_TYPE_AUDIO,
    CollectionType := none, IndexNumber := 2, ImageTags := [],
    MediaType := MEDIA_TYPE_AUDIO, MediaSources := [⟨"/m/two.mp3"⟩] }

/-- An album item. -/
def sampleAlbum : Item :=
  { Id := "alb-1", Name := "Album", «Type» := ITEM_TYPE_ALBUM,
    CollectionType := none, IndexNumber := 0, ImageTags := [],
    MediaType := MEDIA_TYPE_NONE, MediaSources := [] }

/-- A server exposing one album with two tracks (out of index order). -/
def serverAlbum : Server :=
  { url := "http://jf/", userId := "u1", deviceId := "d1", apiKey := "k1",
    getItem := fun _ => sampleAlbum,
    mediaFolders := [],
    userItems := fun _ item_type =>
      if item_type = ITEM_TYPE_AUDIO then [trackTwo, trackOne]
      else [] }

/-- An audio item with one mp3 media source. -/
def sampleTrack : Item :=
  { Id := "trk-mp3", Name := "Song", «Type» := ITEM_TYPE_AUDIO,
    CollectionType := none, IndexNumber := 1, ImageTags := [],
    MediaType := MEDIA_TYPE_AUDIO, MediaSources := [⟨"/music/song.mp3"⟩] }

/-- A server resolving every identifier to `sampleTrack`. -/
def serverTrack : Server :=
  { url := "http://jf/", userId := "u1", deviceId := "d1", apiKey := "k1",
    getItem := fun _ => sampleTrack,
    mediaFolders := [],
    userItems := fun _ _ => [] }

/-- An audio item whose only media source is the dotfile path
"/music/.mp3": it ends in ".mp3" yet `posixpath.splitext` assigns it no
extension. -/
def sampleDotTrack : Item :=
  { Id := "trk-dot", Name := "Dot", «Type» := ITEM_TYPE_AUDIO,
    CollectionType := none, IndexNumber := 1, ImageTags := [],
    MediaType := MEDIA_TYPE_AUDIO, MediaSources := [⟨"/music/.mp3"⟩] }

/-- A server resolving every identifier to `sampleDotTrack`. -/
def serverDotTrack : Server :=
  { url := "http://jf/", userId := "u1", deviceId := "d1", apiKey := "k1",
    getItem := fun _ => sampleDotTrack,
    mediaFolders := [],
    userItems := fun _ _ => [] }

/-- A video item (MediaType "Video"). -/
def sampleVideo : Item :=
  { Id := "vid-1", Name := "Clip", «Type» := "Video",
    CollectionType := none, IndexNumber := 0, ImageTags := [],
    MediaType := "Video", MediaSources := [⟨"/v/clip.mp4"⟩] }

/-- A server resolving every identifier to `sampleVideo`. -/
def serverVideo : Server :=
  { url := "http://jf/", userId := "u1", deviceId := "d1", apiKey := "k1",
    getItem := fun _ => sampleVideo,
    mediaFolders := [],
    userItems := fun _ _ => [] }

/-! ## Tree invariant -/

/-- A predicate holding for a node and, recursively, every node of its
(populated) children lists. -/
inductive AllNodes (p : BNode → Prop) : BNode → Prop where
  | node (d : BNodeData) (ch : Option (List BNode)) (hp : p (.mk d ch))
      (hch : ∀ cs, ch = some cs → ∀ c ∈ cs, AllNodes p c) :
      AllNodes p (.mk d ch)

/-- The spec's node invariant: playable XOR expandable, track nodes being
exactly the playable ones. -/
def NodeInv (n : BNode) : Prop :=
  n.can_play = !n.can_expand ∧
  (n.media_class = MEDIA_CLASS_TRACK →
    n.can_play = true ∧ n.can_expand = false) ∧
  (n.media_class ≠ MEDIA_CLASS_TRACK →
    n.can_play = false ∧ n.can_expand = true)

/-! ## Helper lemmas -/

/-- Bind on `Except` reduces on a success value. -/
theorem except_bind_ok {ε β γ : Type} (b : β) (f : β → Except ε γ) :
    (Except.ok b : Except ε β) >>= f = f b := rfl

/-- Bind on `Except` propagates an error. -/
theorem except_bind_error {ε β γ : Type} (e : ε) (f : β → Except ε γ) :
    (Except.error e : Except ε β) >>= f = Except.error e := rfl

/-- When a function succeeds pointwise on a list, `mapM` over `Except`
collects exactly the mapped results. -/
theorem mapM_ok_of_forall_ok {α β : Type} {f : α → Except JfError β}
    {g : α → β} : ∀ (l : List α), (∀ a ∈ l, f a = .ok (g a)) →
    l.mapM f = .ok (l.map g)
  | [], _ => rfl
  | a :: l, h => by
    have ha : f a = .ok (g a) := h a (List.mem_cons_self a l)
    have hl : l.mapM f = .ok (l.map g) :=
      mapM_ok_of_forall_ok l (fun x hx => h x (List.mem_cons_of_mem a hx))
    rw [List.mapM_cons, ha, except_bind_ok, hl, except_bind_ok]
    rfl

/-- Every element of a successful `mapM` result comes from some list element
on which the function succeeded. -/
theorem mapM_ok_mem {α β : Type} {f : α → Except JfError β} :
    ∀ {l : List α} {ys : List β}, l.mapM f = .ok ys →
    ∀ y ∈ ys, ∃ x ∈ l, f x = .ok y := by
  intro l
  induction l with
  | nil =>
    intro ys h y hy
    rw [List.mapM_nil] at h
    cases h
    simp at hy
  | cons a l ih =>
    intro ys h y hy
    rw [List.mapM_cons] at h
    cases ha : f a with
    | error e => rw [ha, except_bind_error] at h; cases h
    | ok b =>
      rw [ha, except_bind_ok] at h
      cases hl : l.mapM f with
      | error e => rw [hl, except_bind_error] at h; cases h
      | ok bs =>
        rw [hl, except_bind_ok] at h
        cases h
        rcases List.mem_cons.mp hy with hy | hy
        · exact ⟨a, List.mem_cons_self a l, hy ▸ ha⟩
        · rcases ih hl y hy with ⟨x, hx, hfx⟩
          exact ⟨x, List.mem_cons_of_mem a hx, hfx⟩

/-- A path ending in ".mp3" guesses as "audio/mpeg" whenever its final
component has a non-dot character before the suffix (the `posixpath.splitext`
validity condition). -/
theorem guess_type_mp3 (t : String)
    (hB : (t.data.reverse.takeWhile (fun c => c != '/')).any
      (fun c => c != '.') = true) :
    guess_type (t ++ ".mp3") = some "audio/mpeg" := by
  unfold guess_type extOf
  have hdata : (t ++ ".mp3").data = t.data ++ ['.', 'm', 'p', '3'] := by
    rw [String.data_append]
  rw [hdata]
  simp only [List.reverse_append]
  have hrev : (['.', 'm', 'p', '3'] : List Char).reverse =
      ['3', 'p', 'm', '.'] := by decide
  rw [hrev]
  simp only [List.cons_append, List.nil_append]
  have htw1 : List.takeWhile (fun c => c != '/')
      ('3' :: 'p' :: 'm' :: '.' :: t.data.reverse) =
      '3' :: 'p' :: 'm' :: '.' ::
        t.data.reverse.takeWhile (fun c => c != '/') := by
    simp [List.takeWhile_cons]
  rw [htw1]
  have htw2 : List.takeWhile (fun c => c != '.')
      ('3' :: 'p' :: 'm' :: '.' ::
        t.data.reverse.takeWhile (fun c => c != '/')) = ['3', 'p', 'm'] := by
    simp [List.takeWhile_cons]
  rw [htw2]
  rw [if_neg (by simp)]
  have hdrop : ('3' :: 'p' :: 'm' :: '.' ::
      t.data.reverse.takeWhile (fun c => c != '/')).drop
        ((['3', 'p', 'm'] : List Char).length + 1) =
      t.data.reverse.takeWhile (fun c => c != '/') := rfl
  rw [hdrop, if_pos hB]
  decide

/-- An item whose first media source path ends in ".mp3" (validly, per the
`posixpath.splitext` condition) has MIME type "audio/mpeg". -/
theorem media_mime_type_mp3 (item : Item) (src : MediaSource)
    (rest : List MediaSource) (t : String)
    (hS : item.MediaSources = src :: rest) (hP : src.Path = t ++ ".mp3")
    (hB : (t.data.reverse.takeWhile (fun c => c != '/')).any
      (fun c => c != '.') = true) :
    media_mime_type item = .ok "audio/mpeg" := by
  unfold media_mime_type
  rw [hS]
  dsimp only
  rw [hP, guess_type_mp3 t hB]

/-! ## Builder lemmas -/

/-- Building an artist without children always succeeds with the flat
artist node. -/
theorem build_artist_false (s : Server) (a : Item) :
    build_artist s a false = .ok (artist_node s a) := rfl

/-- Building an album without children always succeeds with the flat album
node. -/
theorem build_album_false (s : Server) (a : Item) :
    build_album s a false = .ok (album_node s a) := rfl

/-- Building a music library without children always succeeds with the flat
library node. -/
theorem build_music_library_false (s : Server) (l : Item) :
    build_music_library s l false = .ok (music_library_node l) := rfl

/-- Building a track succeeds with the leaf track node whenever its MIME
type is determinable. -/
theorem build_track_ok (s : Server) (t : Item)
    (h : (media_mime_type t).toOption.isSome = true) :
    build_track s t = .ok (track_node s t) := by
  rcases hm : media_mime_type t with e | m
  · rw [hm] at h
    simp [Except.toOption] at h
  · unfold build_track track_node
    rw [hm]
    rfl

/-- The name comparison is transitive. -/
theorem nameLE_trans (a b c : Item) (hab : nameLE a b) (hbc : nameLE b c) :
    nameLE a c :=
  decide_eq_true (le_trans (of_decide_eq_true hab) (of_decide_eq_true hbc))

/-- The name comparison is total. -/
theorem nameLE_total (a b : Item) : nameLE a b || nameLE b a := by
  unfold nameLE
  rcases le_total a.Name b.Name with h | h <;> simp [h]

/-- The index-number comparison is transitive. -/
theorem indexLE_trans (a b c : Item) (hab : indexLE a b) (hbc : indexLE b c) :
    indexLE a c :=
  decide_eq_true (le_trans (of_decide_eq_true hab) (of_decide_eq_true hbc))

/-- The index-number comparison is total. -/
theorem indexLE_total (a b : Item) : indexLE a b || indexLE b a := by
  unfold indexLE
  rcases le_total a.IndexNumber b.IndexNumber with h | h <;> simp [h]

/-- A node with no children list satisfies `AllNodes` when it satisfies the
predicate itself. -/
theorem allNodes_flat {p : BNode → Prop} (d : BNodeData)
    (h : p (.mk d none)) : AllNodes p (.mk d none) :=
  .node d none h (by intro cs hcs; cases hcs)

/-- A non-playable, expandable, non-track node satisfies the invariant. -/
theorem nodeInv_nonplayable (d : BNodeData) (ch : Option (List BNode))
    (hp : d.can_play = false) (he : d.can_expand = true)
    (hm : d.media_class ≠ MEDIA_CLASS_TRACK) : NodeInv (.mk d ch) := by
  unfold NodeInv BNode.can_play BNode.can_expand BNode.media_class BNode.data
  exact ⟨by rw [hp, he]; rfl, fun h => absurd h hm, fun _ => ⟨hp, he⟩⟩

/-- A playable, non-expandable track node satisfies the invariant. -/
theorem nodeInv_playable (d : BNodeData) (ch : Option (List BNode))
    (hp : d.can_play = true) (he : d.can_expand = false)
    (hm : d.media_class = MEDIA_CLASS_TRACK) : NodeInv (.mk d ch) := by
  unfold NodeInv BNode.can_play BNode.can_expand BNode.media_class BNode.data
  exact ⟨by rw [hp, he]; rfl, fun _ => ⟨hp, he⟩, fun h => absurd hm h⟩

/-- Every successfully built track node satisfies the invariant. -/
theorem allNodes_track {s : Server} {t : Item} {n : BNode}
    (h : build_track s t = .ok n) : AllNodes NodeInv n := by
  unfold build_track at h
  cases hm : media_mime_type t with
  | error e => rw [hm, except_bind_error] at h; cases h
  | ok m =>
    rw [hm, except_bind_ok] at h
    injection h with h
    subst h
    exact allNodes_flat _ (nodeInv_playable _ _ rfl rfl rfl)

/-- Every artist node built without children satisfies the invariant. -/
theorem allNodes_artist_false {s : Server} {a : Item} {n : BNode}
    (h : build_artist s a false = .ok n) : AllNodes NodeInv n := by
  rw [build_artist_false] at h
  injection h with h
  subst h
  exact allNodes_flat _ (nodeInv_nonplayable _ _ rfl rfl
    (by show MEDIA_CLASS_ARTIST ≠ MEDIA_CLASS_TRACK; decide))

/-- Every album node built without children satisfies the invariant. -/
theorem allNodes_album_false {s : Server} {a : Item} {n : BNode}
    (h : build_album s a false = .ok n) : AllNodes NodeInv n := by
  rw [build_album_false] at h
  injection h with h
  subst h
  exact allNodes_flat _ (nodeInv_nonplayable _ _ rfl rfl
    (by show MEDIA_CLASS_ALBUM ≠ MEDIA_CLASS_TRACK; decide))

/-- Every library node built without children satisfies the invariant. -/
theorem allNodes_library_false {s : Server} {l : Item} {n : BNode}
    (h : build_library s l false = .ok n) : AllNodes NodeInv n := by
  unfold build_library at h
  cases hct : l.CollectionType with
  | none => rw [hct] at h; cases h
  | some ct =>
    rw [hct] at h
    dsimp only at h
    by_cases hc : ct = COLLECTION_TYPE_MUSIC
    · rw [if_pos hc, build_music_library_false] at h
      injection h with h
      subst h
      exact allNodes_flat _ (nodeInv_nonplayable _ _ rfl rfl
        (by show MEDIA_CLASS_DIRECTORY ≠ MEDIA_CLASS_TRACK; decide))
    · rw [if_neg hc] at h
      cases h

/-- A successful `mapM` of an invariant-preserving builder yields only
invariant-satisfying nodes. -/
theorem allNodes_of_mapM {f : Item → Except JfError BNode} {l : List Item}
    {cs : List BNode} (h : l.mapM f = .ok cs)
    (hf : ∀ x n, f x = .ok n → AllNodes NodeInv n) :
    ∀ c ∈ cs, AllNodes NodeInv c := by
  intro c hc
  rcases mapM_ok_mem h c hc with ⟨x, _, hfx⟩
  exact hf x c hfx

/-- An album built with children satisfies the invariant throughout. -/
theorem allNodes_album_true {s : Server} {a : Item} {n : BNode}
    (h : build_album s a true = .ok n) : AllNodes NodeInv n := by
  unfold build_album at h
  rw [if_pos rfl] at h
  cases hbt : build_tracks s a.Id with
  | error e => rw [hbt, except_bind_error] at h; cases h
  | ok cs =>
    rw [hbt, except_bind_ok] at h
    injection h with h
    subst h
    unfold build_tracks at hbt
    refine .node _ _ (nodeInv_nonplayable _ _ rfl rfl
      (by show MEDIA_CLASS_ALBUM ≠ MEDIA_CLASS_TRACK; decide)) ?_
    intro cs' hcs' c hc
    injection hcs' with hcs'
    subst hcs'
    exact allNodes_of_mapM hbt (fun x m hx => allNodes_track hx) c hc

/-- An artist built with children satisfies the invariant throughout. -/
theorem allNodes_artist_true {s : Server} {a : Item} {n : BNode}
    (h : build_artist s a true = .ok n) : AllNodes NodeInv n := by
  unfold build_artist at h
  rw [if_pos rfl] at h
  cases hba : build_albums s a.Id with
  | error e => rw [hba, except_bind_error] at h; cases h
  | ok cs =>
    rw [hba, except_bind_ok] at h
    injection h with h
    subst h
    unfold build_albums at hba
    refine .node _ _ (nodeInv_nonplayable _ _ rfl rfl
      (by show MEDIA_CLASS_ARTIST ≠ MEDIA_CLASS_TRACK; decide)) ?_
    intro cs' hcs' c hc
    injection hcs' with hcs'
    subst hcs'
    exact allNodes_of_mapM hba (fun x m hx => allNodes_album_false hx) c hc

/-- A music library built with children satisfies the invariant
throughout. -/
theorem allNodes_music_library_true {s : Server} {l : Item} {n : BNode}
    (h : build_music_library s l true = .ok n) : AllNodes NodeInv n := by
  unfold build_music_library at h
  rw [if_pos rfl] at h
  cases hba : build_artists s l.Id with
  | error e => rw [hba, except_bind_error] at h; cases h
  | ok cs =>
    rw [hba, except_bind_ok] at h
    injection h with h
    subst h
    unfold build_artists at hba
    refine .node _ _ (nodeInv_nonplayable _ _ rfl rfl
      (by show MEDIA_CLASS_DIRECTORY ≠ MEDIA_CLASS_TRACK; decide)) ?_
    intro cs' hcs' c hc
    injection hcs' with hcs'
    subst hcs'
    exact allNodes_of_mapM hba (fun x m hx => allNodes_artist_false hx) c hc

/-- A library built with children satisfies the invariant throughout. -/
theorem allNodes_library_true {s : Server} {l : Item} {n : BNode}
    (h : build_library s l true = .ok n) : AllNodes NodeInv n := by
  unfold build_library at h
  cases hct : l.CollectionType with
  | none => rw [hct] at h; cases h
  | some ct =>
    rw [hct] at h
    dsimp only at h
    by_cases hc : ct = COLLECTION_TYPE_MUSIC
    · rw [if_pos hc] at h
      exact allNodes_music_library_true h
    · rw [if_neg hc] at h
      cases h

/-- A successful root listing satisfies the invariant throughout, has no
identifier and is not playable. -/
theorem allNodes_build_libraries {s : Server} {n : BNode}
    (h : build_libraries s = .ok n) :
    AllNodes NodeInv n ∧ n.identifier = none ∧ n.can_play = false := by
  unfold build_libraries at h
  cases hml : (get_libraries s).mapM (fun l => build_library s l false) with
  | error e => rw [hml, except_bind_error] at h; cases h
  | ok cs =>
    rw [hml, except_bind_ok] at h
    injection h with h
    subst h
    refine ⟨.node _ _ (nodeInv_nonplayable _ _ rfl rfl
      (by show MEDIA_CLASS_DIRECTORY ≠ MEDIA_CLASS_TRACK; decide)) ?_,
      rfl, rfl⟩
    intro cs' hcs' c hc
    injection hcs' with hcs'
    subst hcs'
    exact allNodes_of_mapM hml (fun x m hx => allNodes_library_false hx) c hc

/-! ## Claim theorems -/

/-- C1: the claim says the root browse's children are exactly the user's
music libraries.  The code at a concrete input shows otherwise:
`SUPPORTED_COLLECTION_TYPES` is `[movies, tvshows]`, so `_get_libraries`
filters every music library out of the root listing (children come out
empty), while a movies library passes the filter and then makes the whole
root browse fail in `_build_library`. -/
theorem claim_C1_root_excludes_music :
    sampleMusicLibrary ∈ serverMusicOnly.mediaFolders ∧
    sampleMusicLibrary.CollectionType = some COLLECTION_TYPE_MUSIC ∧
    get_libraries serverMusicOnly = [] ∧
    async_browse_media serverMusicOnly none [] =
      .ok (.mk root_data (some [])) ∧
    async_browse_media serverWithMovies none [] =
      .error (.browseError "Unsupported collection type movies") :=
  ⟨by decide, rfl, rfl, rfl, rfl⟩

/-- C2: the claim says an empty media-sources list yields the same error
kind as a failed MIME guess (a raised `BrowseError`).  The code instead hits
the unchecked `[0]` index: at a concrete item with `MediaSources == []`,
`_media_mime_type` (and hence resolve) escapes with an `IndexError`, which
is not the `BrowseError` kind. -/
theorem claim_C2_empty_sources_index_error :
    emptySourcesItem.MediaSources = [] ∧
    media_mime_type emptySourcesItem = .error (.pyError "IndexError") ∧
    async_resolve_media serverEmptySources "track-empty" =
      .error (.pyError "IndexError") ∧
    is_browse_error (.pyError "IndexError") = false ∧
    is_browse_error (.browseError "msg") = true :=
  ⟨rfl, rfl, rfl, rfl, rfl⟩

/-- C3 (amended): resolving an audio item whose first media source path
ends in ".mp3", with the final path component containing a non-dot
character before that suffix (so the extension is valid for
`posixpath.splitext`), returns MIME type "audio/mpeg" and the audio stream
URL template with the item id, user id, device id, API key and the literal
bitrate 140000000.  A dotfile path such as "/music/.mp3" instead fails; see
the counterexample. -/
theorem claim_C3_resolve_mp3 (s : Server) (identifier t : String)
    (src : MediaSource) (rest : List MediaSource)
    (hA : (s.getItem identifier).MediaType = MEDIA_TYPE_AUDIO)
    (hS : (s.getItem identifier).MediaSources = src :: rest)
    (hP : src.Path = t ++ ".mp3")
    (hB : (t.data.reverse.takeWhile (fun c => c != '/')).any
      (fun c => c != '.') = true) :
    async_resolve_media s identifier =
      .ok { url := s.url ++ "Audio/" ++ (s.getItem identifier).Id ++
              "/universal?UserId=" ++ s.userId ++ "&DeviceId=" ++
              s.deviceId ++ "&api_key=" ++ s.apiKey ++
              "&MaxStreamingBitrate=" ++ "140000000",
            mime_type := "audio/mpeg" } := by
  unfold async_resolve_media
  dsimp only
  have h1 : get_stream_url s (s.getItem identifier) =
      .ok (get_audio_stream_url s (s.getItem identifier)) := by
    unfold get_stream_url
    rw [if_pos hA]
  have h2 := media_mime_type_mp3 (s.getItem identifier) src rest t hS hP hB
  rw [h1, except_bind_ok, h2, except_bind_ok]
  rfl

/-- C3 counterexample: an audio item whose first media source path is
"/music/" ++ ".mp3" — it ends in ".mp3", but `mimetypes.guess_type` finds
no extension on the dotfile, so resolve fails with the mime-undetermined
`BrowseError` instead of returning the stream URL and "audio/mpeg" the
claim asserts. -/
theorem claim_C3_counterexample :
    sampleDotTrack.MediaType = MEDIA_TYPE_AUDIO ∧
    sampleDotTrack.MediaSources = [⟨"/music/" ++ ".mp3"⟩] ∧
    guess_type ("/music/" ++ ".mp3") = none ∧
    async_resolve_media serverDotTrack "trk-dot" =
      .error (.browseError
        "Unable to determine mime type for path /music/.mp3") :=
  ⟨rfl, rfl, by decide, rfl⟩

/-- C3 witness: a concrete server and track evaluating the template. -/
theorem claim_C3_witness :
    async_resolve_media serverTrack "trk-mp3" =
      .ok { url := "http://jf/Audio/trk-mp3/universal?UserId=u1&DeviceId=d1&api_key=k1&MaxStreamingBitrate=140000000",
            mime_type := "audio/mpeg" } :=
  claim_C3_resolve_mp3 serverTrack "trk-mp3" "/music/song"
    ⟨"/music/song.mp3"⟩ [] rfl rfl (by decide) (by decide)

/-- C4: browsing a music library returns one child per artist of the
library, each classified "artist", ordered by artist name
non-decreasingly. -/
theorem claim_C4_music_library_children (s : Server) (library_id : String) (mts : List String)
    (hid : library_id ≠ "")
    (hT : (s.getItem library_id).«Type» = ITEM_TYPE_LIBRARY)
    (hC : (s.getItem library_id).CollectionType = some COLLECTION_TYPE_MUSIC) :
    async_browse_media s (some library_id) mts =
      .ok (.mk { music_library_data (s.getItem library_id) with
                  children_media_class := some MEDIA_CLASS_ARTIST }
        (some (artist_children s (s.getItem library_id).Id))) ∧
    (artist_children s (s.getItem library_id).Id).length =
      (get_children s (s.getItem library_id).Id ITEM_TYPE_ARTIST).length ∧
    (∀ c ∈ artist_children s (s.getItem library_id).Id,
      c.media_class = MEDIA_CLASS_ARTIST) ∧
    List.Pairwise (fun a b => a.title ≤ b.title)
      (artist_children s (s.getItem library_id).Id) := by
  have hba : build_artists s (s.getItem library_id).Id =
      .ok (artist_children s (s.getItem library_id).Id) := by
    unfold build_artists artist_children
    exact mapM_ok_of_forall_ok _ (fun a _ => build_artist_false s a)
  refine ⟨?_, ?_, ?_, ?_⟩
  · unfold async_browse_media
    rw [if_neg (by simpa using hid)]
    simp only [Option.getD_some]
    rw [if_pos hT]
    unfold build_library
    rw [hC]
    dsimp only
    rw [if_pos rfl]
    unfold build_music_library
    rw [if_pos rfl, hba, except_bind_ok]
    rfl
  · unfold artist_children
    rw [List.length_map, List.length_mergeSort]
  · intro c hc
    unfold artist_children at hc
    rcases List.mem_map.mp hc with ⟨a, _, rfl⟩
    rfl
  · unfold artist_children
    rw [List.pairwise_map]
    have hs := @List.sorted_mergeSort Item nameLE
      (fun a b c => nameLE_trans a b c) (fun a b => nameLE_total a b)
      (get_children s (s.getItem library_id).Id ITEM_TYPE_ARTIST)
    exact hs.imp (fun h => of_decide_eq_true h)

/-- C4 witness: a concrete library with two artists listed out of name
order. -/
theorem claim_C4_witness :
    async_browse_media serverLibrary (some "lib-music") [] =
      .ok (.mk { music_library_data (serverLibrary.getItem "lib-music") with
                  children_media_class := some MEDIA_CLASS_ARTIST }
        (some (artist_children serverLibrary
          (serverLibrary.getItem "lib-music").Id))) ∧
    (artist_children serverLibrary
        (serverLibrary.getItem "lib-music").Id).length =
      (get_children serverLibrary (serverLibrary.getItem "lib-music").Id
        ITEM_TYPE_ARTIST).length ∧
    (∀ c ∈ artist_children serverLibrary
        (serverLibrary.getItem "lib-music").Id,
      c.media_class = MEDIA_CLASS_ARTIST) ∧
    List.Pairwise (fun a b => a.title ≤ b.title)
      (artist_children serverLibrary
        (serverLibrary.getItem "lib-music").Id) :=
  claim_C4_music_library_children serverLibrary "lib-music" []
    (by decide) rfl rfl

/-- C5 counterexample: an album with one track whose media-sources list is
empty.  Browsing the album does not return a node with one playable child;
it fails outright with an `IndexError`, so the claim as stated is false on
the code. -/
theorem claim_C5_counterexample :
    (get_children serverBadAlbum "alb-bad" ITEM_TYPE_AUDIO).length = 1 ∧
    async_browse_media serverBadAlbum (some "alb-bad") [] =
      .error (.pyError "IndexError") := by
  refine ⟨rfl, ?_⟩
  have h1 : build_tracks serverBadAlbum "alb-bad" =
      .error (.pyError "IndexError") := by
    unfold build_tracks get_children
    show ([emptySourcesItem].mergeSort indexLE).mapM
      (build_track serverBadAlbum) = _
    rw [List.mergeSort_singleton]
    rfl
  unfold async_browse_media
  rw [if_neg (by decide)]
  simp only [Option.getD_some]
  rw [if_neg (by decide), if_neg (by decide), if_pos (by decide)]
  unfold build_album
  rw [if_pos rfl]
  show build_tracks serverBadAlbum (sampleBadAlbum.Id) >>= _ = _
  have h2 : sampleBadAlbum.Id = "alb-bad" := rfl
  rw [h2, h1, except_bind_error]

/-- C5 (amended): for every album all of whose tracks have a determinable
MIME type, browsing the album returns one child per track, every child
playable and non-expandable, with the children listed in index-number
non-decreasing order (the index-sorted permutation of the album's
tracks). -/
theorem claim_C5_album_children_sorted (s : Server) (album_id : String) (mts : List String)
    (hid : album_id ≠ "")
    (hT : (s.getItem album_id).«Type» = ITEM_TYPE_ALBUM)
    (hM : ∀ t ∈ get_children s (s.getItem album_id).Id ITEM_TYPE_AUDIO,
      (media_mime_type t).toOption.isSome = true) :
    async_browse_media s (some album_id) mts =
      .ok (.mk { album_data s (s.getItem album_id) with
                  children_media_class := some MEDIA_CLASS_TRACK }
        (some (track_children s (s.getItem album_id).Id))) ∧
    (track_children s (s.getItem album_id).Id).length =
      (get_children s (s.getItem album_id).Id ITEM_TYPE_AUDIO).length ∧
    (∀ c ∈ track_children s (s.getItem album_id).Id,
      c.can_play = true ∧ c.can_expand = false) ∧
    List.Pairwise (fun a b => a.IndexNumber ≤ b.IndexNumber)
      ((get_children s (s.getItem album_id).Id ITEM_TYPE_AUDIO).mergeSort
        indexLE) ∧
    ((get_children s (s.getItem album_id).Id ITEM_TYPE_AUDIO).mergeSort
        indexLE).Perm
      (get_children s (s.getItem album_id).Id ITEM_TYPE_AUDIO) := by
  have hbt : build_tracks s (s.getItem album_id).Id =
      .ok (track_children s (s.getItem album_id).Id) := by
    unfold build_tracks track_children
    exact mapM_ok_of_forall_ok _ (fun t ht => build_track_ok s t
      (hM t ((List.mergeSort_perm _ indexLE).mem_iff.mp ht)))
  refine ⟨?_, ?_, ?_, ?_, ?_⟩
  · unfold async_browse_media
    rw [if_neg (by simpa using hid)]
    simp only [Option.getD_some]
    rw [if_neg (by rw [hT]; decide), if_neg (by rw [hT]; decide), if_pos hT]
    unfold build_album
    rw [if_pos rfl, hbt, except_bind_ok]
    rfl
  · unfold track_children
    rw [List.length_map, List.length_mergeSort]
  · intro c hc
    unfold track_children at hc
    rcases List.mem_map.mp hc with ⟨t, _, rfl⟩
    exact ⟨rfl, rfl⟩
  · exact (@List.sorted_mergeSort Item indexLE
      (fun a b c => indexLE_trans a b c) (fun a b => indexLE_total a b)
      _).imp (fun h => of_decide_eq_true h)
  · exact List.mergeSort_perm _ _

/-- C5 witness: a concrete album with two mp3 tracks listed out of index
order. -/
theorem claim_C5_witness :
    async_browse_media serverAlbum (some "alb-1") [] =
      .ok (.mk { album_data serverAlbum (serverAlbum.getItem "alb-1") with
                  children_media_class := some MEDIA_CLASS_TRACK }
        (some (track_children serverAlbum
          (serverAlbum.getItem "alb-1").Id))) ∧
    (track_children serverAlbum (serverAlbum.getItem "alb-1").Id).length =
      (get_children serverAlbum (serverAlbum.getItem "alb-1").Id
        ITEM_TYPE_AUDIO).length ∧
    (∀ c ∈ track_children serverAlbum (serverAlbum.getItem "alb-1").Id,
      c.can_play = true ∧ c.can_expand = false) ∧
    List.Pairwise (fun a b => a.IndexNumber ≤ b.IndexNumber)
      ((get_children serverAlbum (serverAlbum.getItem "alb-1").Id
        ITEM_TYPE_AUDIO).mergeSort indexLE) ∧
    ((get_children serverAlbum (serverAlbum.getItem "alb-1").Id
        ITEM_TYPE_AUDIO).mergeSort indexLE).Perm
      (get_children serverAlbum (serverAlbum.getItem "alb-1").Id
        ITEM_TYPE_AUDIO) :=
  claim_C5_album_children_sorted serverAlbum "alb-1" []
    (by decide) rfl (by decide)

/-- C6: resolving an item whose MediaType is not "Audio" fails with the
unsupported-media-type `BrowseError` carrying the offending type, and
produces no stream URL. -/
theorem claim_C6_unsupported_media_type (s : Server) (identifier : String)
    (hM : (s.getItem identifier).MediaType ≠ MEDIA_TYPE_AUDIO) :
    async_resolve_media s identifier =
      .error (.browseError
        ("Unsupported media type " ++ (s.getItem identifier).MediaType)) := by
  unfold async_resolve_media
  dsimp only
  have h1 : get_stream_url s (s.getItem identifier) =
      .error (.browseError
        ("Unsupported media type " ++ (s.getItem identifier).MediaType)) := by
    unfold get_stream_url
    rw [if_neg hM]
  rw [h1, except_bind_error]

/-- C6 witness: a concrete video item. -/
theorem claim_C6_witness :
    async_resolve_media serverVideo "vid-1" =
      .error (.browseError "Unsupported media type Video") :=
  claim_C6_unsupported_media_type serverVideo "vid-1" (by decide)

/-- C7: an explicit browse of a library whose CollectionType is present but
not "music" fails with the unsupported-collection-type `BrowseError`
carrying the offending collection type. -/
theorem claim_C7_unsupported_collection (s : Server) (library_id ct : String) (mts : List String)
    (hid : library_id ≠ "")
    (hT : (s.getItem library_id).«Type» = ITEM_TYPE_LIBRARY)
    (hC : (s.getItem library_id).CollectionType = some ct)
    (hne : ct ≠ COLLECTION_TYPE_MUSIC) :
    async_browse_media s (some library_id) mts =
      .error (.browseError ("Unsupported collection type " ++ ct)) := by
  unfold async_browse_media
  rw [if_neg (by simpa using hid)]
  simp only [Option.getD_some]
  rw [if_pos hT]
  unfold build_library
  rw [hC]
  dsimp only
  rw [if_neg hne]

/-- C7 witness: a concrete movies library. -/
theorem claim_C7_witness :
    async_browse_media serverWithMovies (some "lib-movies") [] =
      .error (.browseError "Unsupported collection type movies") :=
  claim_C7_unsupported_collection serverWithMovies "lib-movies" "movies" []
    (by decide) rfl rfl (by decide)

/-- C8: a node's thumbnail URL is present exactly when the item's ImageTags
holds a "Primary" entry, in which case it is the documented template over
the base URL, item id, tag and API key; otherwise it is absent and no error
occurs (the function is total). -/
theorem claim_C8_thumbnail (s : Server) (media_item : Item) :
    get_thumbnail_url s media_item =
      (media_item.ImageTags.lookup "Primary").map (fun tag =>
        s.url ++ "Items/" ++ media_item.Id ++ "/Images/Primary?Tag=" ++
          tag ++ "&api_key=" ++ s.apiKey) ∧
    ((get_thumbnail_url s media_item).isSome ↔
      (media_item.ImageTags.lookup "Primary").isSome) := by
  unfold get_thumbnail_url
  cases media_item.ImageTags.lookup "Primary" <;> simp

/-- C9: every node of every tree a browse operation returns is playable
XOR expandable, with track nodes exactly the playable leaves and directory,
artist and album nodes expandable and non-playable; the root node
additionally has no identifier and is not playable. -/
theorem claim_C9_tree_invariant (s : Server) (identifier : Option String)
    (media_types : List String) (node : BNode)
    (h : async_browse_media s identifier media_types = .ok node) :
    AllNodes NodeInv node ∧
    (identifier.getD "" = "" →
      node.identifier = none ∧ node.can_play = false) := by
  unfold async_browse_media at h
  by_cases hroot : identifier.getD "" = ""
  · rw [if_pos hroot] at h
    rcases allNodes_build_libraries h with ⟨h1, h2, h3⟩
    exact ⟨h1, fun _ => ⟨h2, h3⟩⟩
  · rw [if_neg hroot] at h
    refine ⟨?_, fun hr => absurd hr hroot⟩
    dsimp only at h
    by_cases h1 : (s.getItem (identifier.getD "")).«Type» = ITEM_TYPE_LIBRARY
    · rw [if_pos h1] at h
      exact allNodes_library_true h
    · rw [if_neg h1] at h
      by_cases h2 : (s.getItem (identifier.getD "")).«Type» = ITEM_TYPE_ARTIST
      · rw [if_pos h2] at h
        exact allNodes_artist_true h
      · rw [if_neg h2] at h
        by_cases h3 :
            (s.getItem (identifier.getD "")).«Type» = ITEM_TYPE_ALBUM
        · rw [if_pos h3] at h
          exact allNodes_album_true h
        · rw [if_neg h3] at h
          cases h

/-- C9 witness: the root listing of a server whose only library is filtered
out. -/
theorem claim_C9_witness :
    AllNodes NodeInv (.mk root_data (some [])) ∧
    ((none : Option String).getD "" = "" →
      (BNode.mk root_data (some [])).identifier = none ∧
      (BNode.mk root_data (some [])).can_play = false) :=
  claim_C9_tree_invariant serverMusicOnly none [] (.mk root_data (some []))
    rfl

/-- C10: the media-types filter argument of `async_browse_media` is never
consulted: any two values give identical results. -/
theorem claim_C10_media_types_ignored (s : Server) (identifier : Option String)
    (media_types₁ media_types₂ : List String) :
    async_browse_media s identifier media_types₁ =
      async_browse_media s identifier media_types₂ := rfl

end Jellyfin
